import Mathlib

/-
Verification development for the WebRtc-HLS repository.

The definitions below are shallow embeddings of the backend source:
  * `HLSManager` (startHLSStream / waitForFirstSegment / generateFilterComplex /
    getStreamUrl / cleanup) from the multi-participant HLS manager;
  * the socket-handler room registry (join-room / produce / disconnect handlers);
  * `Room.addPeer` and `Peer.createWebRtcTransport` from the Room/Peer manager;
  * `MediasoupManager.consume`.
External effects (the mediasoup engine, the filesystem seen by the readiness
poll, ffmpeg) are modelled by explicit environment parameters; stateful maps
(JS `Map`) are modelled as association lists with JS `Map.set`/`Map.delete`
semantics.
-/

namespace WebRtcHLS

/-! ## Association-list maps (JS `Map` semantics) -/

def alookup {β : Type} : List (String × β) → String → Option β
  | [], _ => none
  | (k, v) :: rest, key => if k = key then some v else alookup rest key

def ainsert {β : Type} : List (String × β) → String → β → List (String × β)
  | [], key, val => [(key, val)]
  | (k, v) :: rest, key, val =>
      if k = key then (key, val) :: rest else (k, v) :: ainsert rest key val

def aerase {β : Type} : List (String × β) → String → List (String × β)
  | [], _ => []
  | (k, v) :: rest, key =>
      if k = key then aerase rest key else (k, v) :: aerase rest key

deriving instance DecidableEq for Except

/-- JS `Set.add`: appends the element only when it is not already a member. -/
def setAdd (l : List String) (x : String) : List String :=
  if l.contains x then l else l ++ [x]

/-! ## HLS composition supervisor (`HLSManager`)

`startHLSStream(roomId, participants, ...)` validates the participant count,
short-circuits when a stream already exists, creates the output directory,
allocates one plain-transport pair plus one consumer pair per participant
(ports `20000 + i*4` / `+2`, RTCP on `+1` / `+3`), starts ffmpeg, and waits
for the first segment before registering the stream and returning the URL.
Engine calls and the filesystem are supplied through an `HLSEnv`. -/

structure ParticipantInput where
  videoProducerId : String
  audioProducerId : String
deriving DecidableEq, Repr

structure HLSParticipant where
  videoPort : Nat
  audioPort : Nat
  videoProducerId : String
  audioProducerId : String
deriving DecidableEq, Repr

structure HLSStream where
  roomId : String
  participants : List HLSParticipant
  outputDir : String
deriving DecidableEq, Repr

/-- Filesystem snapshot of a per-room output directory as seen by one tick of
the readiness poll: whether `stream.m3u8` exists, its content, and the file
names present in the directory. -/
structure FSSnapshot where
  manifestExists : Bool
  manifestContent : String
  files : List String

/-- Environment of external effects: whether the engine accepts consuming a
given producer id, and the filesystem snapshot observed at each poll tick. -/
structure HLSEnv where
  consumeOk : String → Bool
  fs : Nat → FSSnapshot

/-- Observable-effect state of the manager: the `streams` map, the set of
existing output directories, and counts of open plain transports/consumers. -/
structure HLSState where
  streams : List (String × HLSStream)
  dirs : List String
  openTransports : Nat
  openConsumers : Nat

def initHLS : HLSState := ⟨[], [], 0, 0⟩

def getStreamUrl (roomId : String) : String :=
  "/hls/" ++ roomId ++ "/stream.m3u8"

/-- Substring test over char lists (JS `String.includes`). -/
def charsContain (needle : List Char) : List Char → Bool
  | [] => needle.isEmpty
  | c :: cs => needle.isPrefixOf (c :: cs) || charsContain needle cs

def strContains (hay needle : String) : Bool :=
  charsContain needle.toList hay.toList

def takeDigits : List Char → List Char × List Char
  | [] => ([], [])
  | c :: cs =>
      if c.isDigit then
        ((c :: (takeDigits cs).1), (takeDigits cs).2)
      else ([], c :: cs)

/-- Match of the regex `segment_\d+\.ts` anchored at the head of the list. -/
def matchSegmentAt (cs : List Char) : Option (List Char) :=
  if ("segment_".toList).isPrefixOf cs then
    let rest := cs.drop 8
    let ds := (takeDigits rest).1
    let rest2 := (takeDigits rest).2
    if ds.isEmpty then none
    else if (".ts".toList).isPrefixOf rest2 then
      some ("segment_".toList ++ ds ++ ".ts".toList)
    else none
  else none

/-- Leftmost match of `segment_\d+\.ts` (JS `String.match`). -/
def findSegmentMatch : List Char → Option (List Char)
  | [] => none
  | c :: cs =>
      match matchSegmentAt (c :: cs) with
      | some m => some m
      | none => findSegmentMatch cs

/-- One tick of the `waitForFirstSegment` poll: the manifest exists, its
content references a `.ts` segment matching `segment_\d+\.ts`, and that
segment file exists in the output directory. -/
def pollReady (s : FSSnapshot) : Bool :=
  s.manifestExists &&
  strContains s.manifestContent ".ts" &&
  (match findSegmentMatch s.manifestContent.toList with
   | some seg => s.files.contains (String.mk seg)
   | none => false)

/-- The 500 ms poll loop: at tick `k` the elapsed time is `500*k` ms, and the
timeout check `elapsed > 30000` fires at tick 61, so exactly 60 snapshots are
inspected before rejection. -/
def waitLoop (fs : Nat → FSSnapshot) : Nat → Nat → Except String Unit
  | 0, _ => .error "Timeout waiting for HLS manifest after 30000ms"
  | Nat.succ fuel, tick =>
      if pollReady (fs tick) then .ok () else waitLoop fs fuel (tick + 1)

def waitForFirstSegment (fs : Nat → FSSnapshot) : Except String Unit :=
  waitLoop fs 60 1

/-- Port quadruple of one composed tap, as used by the `transport.connect`
calls: RTP/RTCP for video and RTP/RTCP for audio. -/
def tapPortQuad (t : HLSParticipant) : List Nat :=
  [t.videoPort, t.videoPort + 1, t.audioPort, t.audioPort + 1]

/-- The per-participant setup loop of `startHLSStream`: for participant `i`,
`basePort = 20000 + i * 4`, two plain transports are created, then the video
and audio consumers; a failed `consume` aborts the loop. Returns the error (if
any), the taps completed so far, and the updated state. -/
def setupTaps (env : HLSEnv) : List ParticipantInput → Nat → HLSState →
    List HLSParticipant → Option String × List HLSParticipant × HLSState
  | [], _, st, acc => (none, acc.reverse, st)
  | p :: rest, i, st, acc =>
      let basePort := 20000 + i * 4
      let st1 := { st with openTransports := st.openTransports + 2 }
      if env.consumeOk p.videoProducerId then
        let st2 := { st1 with openConsumers := st1.openConsumers + 1 }
        if env.consumeOk p.audioProducerId then
          let st3 := { st2 with openConsumers := st2.openConsumers + 1 }
          let tap : HLSParticipant :=
            { videoPort := basePort, audioPort := basePort + 2,
              videoProducerId := p.videoProducerId,
              audioProducerId := p.audioProducerId }
          setupTaps env rest (i + 1) st3 (tap :: acc)
        else (some ("cannot consume producer " ++ p.audioProducerId), acc.reverse, st2)
      else (some ("cannot consume producer " ++ p.videoProducerId), acc.reverse, st1)

/-- `cleanup(stream)`: kills ffmpeg, closes every tap's consumers and
transports, and recursively removes the output directory. -/
def cleanup (st : HLSState) (stream : HLSStream) : HLSState :=
  { st with
    openTransports := st.openTransports - 2 * stream.participants.length,
    openConsumers := st.openConsumers - 2 * stream.participants.length,
    dirs := st.dirs.filter (fun d => d != stream.outputDir) }

/-- Body of `startHLSStream` after validation, idempotence check and
directory creation: per-participant setup, ffmpeg launch and readiness wait;
on any failure the partially constructed stream is cleaned up, on success
the stream is registered and the URL returned. -/
def startHLSStreamGo (env : HLSEnv) (roomId outputDir : String) (st1 : HLSState)
    (participants : List ParticipantInput) : Except String String × HLSState :=
  match setupTaps env participants 0 st1 [] with
  | (some errMsg, taps, st2) =>
      (.error errMsg, cleanup st2 ⟨roomId, taps, outputDir⟩)
  | (none, taps, st2) =>
      match waitForFirstSegment env.fs with
      | .error e => (.error e, cleanup st2 ⟨roomId, taps, outputDir⟩)
      | .ok _ =>
          (.ok (getStreamUrl roomId),
           { st2 with streams := ainsert st2.streams roomId ⟨roomId, taps, outputDir⟩ })

def startHLSStream (st : HLSState) (env : HLSEnv) (roomId : String)
    (participants : List ParticipantInput) : Except String String × HLSState :=
  if participants.length = 0 then
    (.error "No participants provided for HLS stream", st)
  else if participants.length > 4 then
    (.error ("HLS not supported for more than 4 users. Current participants: "
      ++ toString participants.length), st)
  else if (alookup st.streams roomId).isSome then
    (.ok (getStreamUrl roomId), st)
  else
    let outputDir := "public/hls/" ++ roomId
    let st1 := { st with
      dirs := if st.dirs.contains outputDir then st.dirs else outputDir :: st.dirs }
    startHLSStreamGo env roomId outputDir st1 participants

/-- `stopHLSStream(roomId)`: cleanup plus removal from the map when present. -/
def stopHLSStream (st : HLSState) (roomId : String) : HLSState :=
  match alookup st.streams roomId with
  | none => st
  | some stream =>
      { cleanup st stream with streams := aerase st.streams roomId }

/-! ## Layout selection (`HLSManager.generateFilterComplex`) -/

structure FilterComplex where
  videoFilter : String
  audioFilter : String
  videoMap : String
  audioMap : String
deriving DecidableEq, Repr

/-- `generateFilterComplex(participantCount)`: the `switch` on the tap count,
yielding the fixed ffmpeg filter graph of the source, or throwing for any
other count. -/
def generateFilterComplex (participantCount : Nat) : Except String FilterComplex :=
  if participantCount = 1 then
    .ok { videoFilter := "[0:v]scale=1280:720[vout]",
          audioFilter := "[1:a]anull[aout]",
          videoMap := "[vout]", audioMap := "[aout]" }
  else if participantCount = 2 then
    .ok { videoFilter := "[0:v]scale=640:720[v0];[2:v]scale=640:720[v1];[v0][v1]hstack=inputs=2[vout]",
          audioFilter := "[1:a][3:a]amix=inputs=2:duration=longest[aout]",
          videoMap := "[vout]", audioMap := "[aout]" }
  else if participantCount = 3 then
    .ok { videoFilter := "[0:v]scale=853:720[v0];[2:v]scale=427:360[v1];[4:v]scale=427:360[v2];[v1][v2]vstack=inputs=2[vright];[v0][vright]hstack=inputs=2[vout]",
          audioFilter := "[1:a][3:a][5:a]amix=inputs=3:duration=longest[aout]",
          videoMap := "[vout]", audioMap := "[aout]" }
  else if participantCount = 4 then
    .ok { videoFilter := "[0:v]scale=640:360[v0];[2:v]scale=640:360[v1];[4:v]scale=640:360[v2];[6:v]scale=640:360[v3];[v0][v1]hstack=inputs=2[top];[v2][v3]hstack=inputs=2[bottom];[top][bottom]vstack=inputs=2[vout]",
          audioFilter := "[1:a][3:a][5:a][7:a]amix=inputs=4:duration=longest[aout]",
          videoMap := "[vout]", audioMap := "[aout]" }
  else
    .error ("Unsupported participant count: " ++ toString participantCount)

/-! ## Socket-handler room registry (`WebSocket.ts`)

`rooms : Map<roomId, Room>` with `Room = {id, peers : Set, producers : Map}`
and `peers : Map<socketId, roomId>`, mutated by the `join-room`, `produce`
and `disconnect` handlers. -/

structure ProducerInfo where
  producerId : String
  kind : String
  peerId : String
deriving DecidableEq, Repr

structure WSRoom where
  id : String
  peers : List String
  producers : List (String × ProducerInfo)
deriving DecidableEq, Repr

structure WSState where
  rooms : List (String × WSRoom)
  peers : List (String × String)
deriving DecidableEq, Repr

def initWS : WSState := ⟨[], []⟩

/-- The `join-room` handler: creates the room when absent, adds the socket to
the room's peer set and to the global peer map, and returns the
`existing-peers` snapshot (the room's peers after the add, filtered to exclude
the joiner) together with the `existing-producers` snapshot. -/
def joinRoom (st : WSState) (socketId roomId : String) :
    WSState × List String × List ProducerInfo :=
  let rooms1 :=
    if (alookup st.rooms roomId).isSome then st.rooms
    else ainsert st.rooms roomId { id := roomId, peers := [], producers := [] }
  let room := (alookup rooms1 roomId).getD { id := roomId, peers := [], producers := [] }
  let room1 := { room with peers := setAdd room.peers socketId }
  let st2 : WSState :=
    { rooms := ainsert rooms1 roomId room1,
      peers := ainsert st.peers socketId roomId }
  let existingPeers := room1.peers.filter (fun pid => pid != socketId)
  let existingProducers := room1.producers.map Prod.snd
  (st2, existingPeers, existingProducers)

/-- The producer-registration part of the `produce` handler: when the socket
is in a room, record the producer in that room's producer map. -/
def produceOp (st : WSState) (socketId producerId kind : String) : WSState :=
  match alookup st.peers socketId with
  | none => st
  | some roomId =>
      match alookup st.rooms roomId with
      | none => st
      | some room =>
          let info : ProducerInfo := ⟨producerId, kind, socketId⟩
          let room1 : WSRoom :=
            { room with producers := ainsert room.producers producerId info }
          { st with rooms := ainsert st.rooms roomId room1 }

/-- The `disconnect` handler: removes the socket from its room's peer set,
drops the producers it owned, deletes the room when its peer set became
empty, and removes the socket from the global peer map. -/
def disconnectPeer (st : WSState) (socketId : String) : WSState :=
  match alookup st.peers socketId with
  | none => { st with peers := aerase st.peers socketId }
  | some roomId =>
      let st1 :=
        match alookup st.rooms roomId with
        | none => st
        | some room =>
            let room2 : WSRoom :=
              { room with
                peers := room.peers.filter (fun x => x != socketId),
                producers := room.producers.filter (fun e => e.2.peerId != socketId) }
            if room2.peers.length = 0 then
              { st with rooms := aerase st.rooms roomId }
            else
              { st with rooms := ainsert st.rooms roomId room2 }
      { st1 with peers := aerase st1.peers socketId }

inductive WSOp where
  | join (socketId roomId : String)
  | produce (socketId producerId kind : String)
  | disconnect (socketId : String)

def applyOp (st : WSState) : WSOp → WSState
  | .join socketId roomId => (joinRoom st socketId roomId).1
  | .produce socketId producerId kind => produceOp st socketId producerId kind
  | .disconnect socketId => disconnectPeer st socketId

def applyOps (st : WSState) (ops : List WSOp) : WSState :=
  ops.foldl applyOp st

/-- No room retained by the registry has an empty participant set. -/
def noEmptyRooms (st : WSState) : Prop :=
  ∀ rid room, alookup st.rooms rid = some room → room.peers ≠ []

/-! ## `Room` / `Peer` manager (historical iteration)

`Room.addPeer(peerId, isViewer)` unconditionally constructs a fresh `Peer`
and stores it under `peerId` in either the `broadcasters` or the `peers`
map. `Peer.createWebRtcTransport(direction)` always asks the router for a
new transport and stores it under the direction key; the router call is
modelled by the caller passing the engine-assigned id of the newly created
transport. -/

structure MPeer where
  id : String
  transports : List (String × Nat)
  producers : List String
  consumers : List String
deriving DecidableEq, Repr

def newPeer (peerId : String) : MPeer := ⟨peerId, [], [], []⟩

structure MRoom where
  id : String
  peers : List (String × MPeer)
  broadcasters : List (String × MPeer)
deriving DecidableEq, Repr

def addPeer (room : MRoom) (peerId : String) (isViewer : Bool) : MRoom × MPeer :=
  let peer := newPeer peerId
  if isViewer then
    ({ room with broadcasters := ainsert room.broadcasters peerId peer }, peer)
  else
    ({ room with peers := ainsert room.peers peerId peer }, peer)

/-- `Peer.createWebRtcTransport(direction)`: `freshId` is the id of the
transport newly created by `router.createWebRtcTransport` (the router always
creates a new one); it is stored under the direction key, replacing any
previous transport for that direction, and returned. -/
def createWebRtcTransport (p : MPeer) (freshId : Nat) (direction : String) :
    MPeer × Nat :=
  ({ p with transports := ainsert p.transports direction freshId }, freshId)

/-- Number of entries stored under a given key. -/
def countKey {β : Type} (m : List (String × β)) (k : String) : Nat :=
  (m.filter (fun e => e.1 = k)).length

/-! ## `MediasoupManager.consume`

The manager holds flat, global maps of transports, producers (with owning
peer id) and consumers — there is no room scoping. `consume` checks the
router, the transport, the producer registry and `router.canConsume`, then
creates a paused consumer (its engine-assigned id is passed as `freshId`). -/

structure MSState where
  routerInit : Bool
  transports : List String
  producers : List (String × String)
  consumers : List (String × String)
deriving DecidableEq, Repr

abbrev RtpCapabilities := String

def consume (st : MSState) (canConsume : String → RtpCapabilities → Bool)
    (freshId : String) (transportId producerId : String)
    (rtpCapabilities : RtpCapabilities) (peerId : String) :
    Except String (String × MSState) :=
  if st.routerInit = false then
    .error "Router not initialized"
  else if (st.transports.contains transportId) = false then
    .error ("Transport not found: " ++ transportId)
  else if (alookup st.producers producerId).isNone then
    .error ("Producer not found: " ++ producerId)
  else if canConsume producerId rtpCapabilities = false then
    .error "Cannot consume this producer"
  else
    .ok (freshId, { st with consumers := ainsert st.consumers freshId peerId })

/-- The socket `consume` handler: forwards to `MediasoupManager.consume` with
the caller's socket id; the room registry is not consulted at all. -/
def consumeHandler (_wsSt : WSState) (msSt : MSState)
    (canConsume : String → RtpCapabilities → Bool) (freshId : String)
    (socketId transportId producerId : String)
    (rtpCapabilities : RtpCapabilities) : Except String (String × MSState) :=
  consume msSt canConsume freshId transportId producerId rtpCapabilities socketId

/-! ## Concrete fixtures

Concrete states and environments used by the closed theorems below. -/

/-- Output-directory snapshot in which the first segment is ready. -/
def readySnap : FSSnapshot :=
  { manifestExists := true,
    manifestContent := "#EXTM3U\nsegment_000.ts\n",
    files := ["segment_000.ts"] }

/-- Environment in which every consume succeeds and the first segment is
observable from the first poll tick on. -/
def goodEnv : HLSEnv := { consumeOk := fun _ => true, fs := fun _ => readySnap }

/-- Environment in which every consume succeeds but the manifest never
appears. -/
def neverReadyEnv : HLSEnv :=
  { consumeOk := fun _ => true,
    fs := fun _ => { manifestExists := false, manifestContent := "", files := [] } }

def fiveInputs : List ParticipantInput :=
  [⟨"v1", "a1"⟩, ⟨"v2", "a2"⟩, ⟨"v3", "a3"⟩, ⟨"v4", "a4"⟩, ⟨"v5", "a5"⟩]

/-- Manager state in which room `r` already has a live stream. -/
def stWithRoomR : HLSState :=
  { streams := [("r", ⟨"r", [], "public/hls/r"⟩)],
    dirs := ["public/hls/r"],
    openTransports := 2, openConsumers := 2 }

def c3run1 : Except String String × HLSState :=
  startHLSStream initHLS goodEnv "roomA" [⟨"vA", "aA"⟩]

def c3run2 : Except String String × HLSState :=
  startHLSStream c3run1.2 goodEnv "roomB" [⟨"vB", "aB"⟩]

def c8first : MPeer × Nat := createWebRtcTransport (newPeer "p") 1 "send"

def c8second : MPeer × Nat := createWebRtcTransport c8first.1 2 "send"

/-- Registry with peer `A` in room `r1` and peer `B` in room `r2`, where `B`
has registered the video producer `p2` in `r2` only. -/
def wsTwoRooms : WSState :=
  { rooms := [("r1", ⟨"r1", ["A"], []⟩),
              ("r2", ⟨"r2", ["B"], [("p2", ⟨"p2", "video", "B"⟩)]⟩)],
    peers := [("A", "r1"), ("B", "r2")] }

/-- The matching global mediasoup state: transport `t1` belongs to `A`, and
producer `p2` is registered in the global (room-agnostic) producer map. -/
def msGlobal : MSState :=
  { routerInit := true, transports := ["t1"],
    producers := [("p2", "B")], consumers := [] }

/-- Room in which peer `p1` is present and owns one send transport. -/
def roomWithP1 : MRoom := ⟨"r", [("p1", ⟨"p1", [("send", 7)], [], []⟩)], []⟩

/-- Whether an exception-carrying result is a success. -/
def isOkE {ε α : Type} : Except ε α → Bool
  | .ok _ => true
  | .error _ => false

/-! ## Helper lemmas -/

theorem countKey_ainsert_self {β : Type} (m : List (String × β)) (k : String) (v : β) :
    countKey (ainsert m k v) k = if countKey m k = 0 then 1 else countKey m k := by
  induction m with
  | nil => simp [ainsert, countKey]
  | cons hd tl ih =>
      obtain ⟨hk, hv⟩ := hd
      by_cases h1 : hk = k
      · subst h1
        simp [ainsert, countKey]
      · have hd : decide (hk = k) = false := by simp [h1]
        have hfil : ∀ l : List (String × β),
            List.filter (fun e => decide (e.1 = k)) ((hk, hv) :: l) =
            List.filter (fun e => decide (e.1 = k)) l := by
          intro l
          rw [List.filter_cons]
          simp [hd]
        simp only [countKey] at ih ⊢
        simp only [ainsert, if_neg h1]
        simp only [hfil]
        exact ih

theorem alookup_ainsert {β : Type} (m : List (String × β)) (k key : String) (v : β) :
    alookup (ainsert m k v) key = if k = key then some v else alookup m key := by
  induction m with
  | nil =>
      by_cases h : k = key <;> simp [ainsert, alookup, h]
  | cons hd tl ih =>
      obtain ⟨hk, hv⟩ := hd
      by_cases h1 : hk = k
      · subst h1
        by_cases h2 : hk = key <;> simp [ainsert, alookup, h2]
      · by_cases h2 : hk = key
        · subst h2
          have : ¬ k = hk := fun h => h1 h.symm
          simp [ainsert, alookup, h1, this]
        · simp [ainsert, alookup, h1, h2, ih]

theorem alookup_aerase {β : Type} (m : List (String × β)) (k key : String) :
    alookup (aerase m k) key = if k = key then none else alookup m key := by
  induction m with
  | nil => by_cases h : k = key <;> simp [aerase, alookup, h]
  | cons hd tl ih =>
      obtain ⟨hk, hv⟩ := hd
      by_cases h1 : hk = k
      · subst h1
        by_cases h2 : hk = key
        · simp [aerase, alookup, h2, ih] at *
          simpa [h2] using ih
        · simp [aerase, alookup, h2, ih]
      · by_cases h2 : hk = key
        · subst h2
          have : ¬ k = hk := fun h => h1 h.symm
          simp [aerase, alookup, h1, this]
        · simp [aerase, alookup, h1, h2, ih]

theorem setAdd_ne_nil (l : List String) (x : String) : setAdd l x ≠ [] := by
  unfold setAdd
  by_cases h : l.contains x = true
  · rw [if_pos h]
    intro hnil
    subst hnil
    simp at h
  · rw [if_neg h]
    simp

/-! ## Claims -/

/-- C2: for every room id and every participant list of length strictly
greater than 4, `startHLSStream` fails with the capacity error and has no
effect at all: the stream map, the directories and the open transport and
consumer counts are all returned unchanged. -/
theorem startHLSStream_capacity_exceeded (st : HLSState) (env : HLSEnv)
    (roomId : String) (participants : List ParticipantInput)
    (h : participants.length > 4) :
    startHLSStream st env roomId participants =
      (.error ("HLS not supported for more than 4 users. Current participants: "
        ++ toString participants.length), st) := by
  unfold startHLSStream
  have h0 : ¬ participants.length = 0 := by omega
  rw [if_neg h0, if_pos h]

/-- Witness for C2: five participants are refused with the state unchanged. -/
theorem startHLSStream_capacity_exceeded_witness :
    startHLSStream initHLS goodEnv "room1" fiveInputs =
      (.error ("HLS not supported for more than 4 users. Current participants: "
        ++ toString fiveInputs.length), initHLS) :=
  startHLSStream_capacity_exceeded initHLS goodEnv "room1" fiveInputs (by decide)

/-- C1 counterexample: with a stream already registered for room `r`, a
subsequent `startHLSStream` call for `r` whose participant list has five
entries throws the capacity error instead of returning the existing output
descriptor, so idempotence does not hold for arbitrary subsequent calls. -/
theorem startHLSStream_existing_job_call_can_fail :
    (alookup stWithRoomR.streams "r").isSome = true ∧
    (startHLSStream stWithRoomR goodEnv "r" fiveInputs).1 ≠ .ok (getStreamUrl "r") := by
  decide

/-- C1 (amended): when a stream already exists for the room and the
participant list passes the count validation (nonempty, at most 4), the call
creates no new job, leaves the whole state unchanged and returns the existing
output descriptor `/hls/<roomId>/stream.m3u8`. -/
theorem startHLSStream_idempotent_for_valid_requests (st : HLSState) (env : HLSEnv)
    (roomId : String) (participants : List ParticipantInput)
    (hex : (alookup st.streams roomId).isSome = true)
    (h1 : 1 ≤ participants.length) (h4 : participants.length ≤ 4) :
    startHLSStream st env roomId participants = (.ok (getStreamUrl roomId), st) := by
  unfold startHLSStream
  have h0 : ¬ participants.length = 0 := by omega
  have hgt : ¬ participants.length > 4 := by omega
  rw [if_neg h0, if_neg hgt, if_pos hex]

/-- Witness for C1 (amended): a one-participant call against the existing
stream of room `r` returns its URL and changes nothing. -/
theorem startHLSStream_idempotent_for_valid_requests_witness :
    startHLSStream stWithRoomR goodEnv "r" [⟨"v9", "a9"⟩] =
      (.ok (getStreamUrl "r"), stWithRoomR) :=
  startHLSStream_idempotent_for_valid_requests stWithRoomR goodEnv "r"
    [⟨"v9", "a9"⟩] (by decide) (by decide) (by decide)

/-- C3: the port quadruple of a tap is `20000 + 4*i` through `20000 + 4*i + 3`
for tap index `i` regardless of the room, so two simultaneously active jobs
for different rooms are assigned the very same quadruple: after starting
streams for `roomA` and `roomB` (one participant each), both jobs hold the
quadruple `[20000, 20001, 20002, 20003]` for their first tap. -/
theorem startHLSStream_port_quadruples_collide_across_rooms :
    ((alookup c3run2.2.streams "roomA").map (fun s => s.participants.map tapPortQuad)
        = some [[20000, 20001, 20002, 20003]]) ∧
    ((alookup c3run2.2.streams "roomB").map (fun s => s.participants.map tapPortQuad)
        = some [[20000, 20001, 20002, 20003]]) := by
  decide

/-- C6: layout selection is a pure, total, deterministic function of the tap
count on 1..4 — 1 maps to the full-frame graph, 2 to side-by-side halves,
3 to one large tile plus two stacked tiles, 4 to the 2x2 grid, each with the
N-input longest-duration audio mix (the 1-input mix degenerating to the
pass-through `anull`) — and every count outside 1..4 is rejected. -/
theorem generateFilterComplex_by_count :
    generateFilterComplex 1 = .ok
      ⟨"[0:v]scale=1280:720[vout]",
       "[1:a]anull[aout]", "[vout]", "[aout]"⟩ ∧
    generateFilterComplex 2 = .ok
      ⟨"[0:v]scale=640:720[v0];[2:v]scale=640:720[v1];[v0][v1]hstack=inputs=2[vout]",
       "[1:a][3:a]amix=inputs=2:duration=longest[aout]", "[vout]", "[aout]"⟩ ∧
    generateFilterComplex 3 = .ok
      ⟨"[0:v]scale=853:720[v0];[2:v]scale=427:360[v1];[4:v]scale=427:360[v2];[v1][v2]vstack=inputs=2[vright];[v0][vright]hstack=inputs=2[vout]",
       "[1:a][3:a][5:a]amix=inputs=3:duration=longest[aout]", "[vout]", "[aout]"⟩ ∧
    generateFilterComplex 4 = .ok
      ⟨"[0:v]scale=640:360[v0];[2:v]scale=640:360[v1];[4:v]scale=640:360[v2];[6:v]scale=640:360[v3];[v0][v1]hstack=inputs=2[top];[v2][v3]hstack=inputs=2[bottom];[top][bottom]vstack=inputs=2[vout]",
       "[1:a][3:a][5:a][7:a]amix=inputs=4:duration=longest[aout]", "[vout]", "[aout]"⟩ ∧
    ∀ n : Nat, (n = 0 ∨ 5 ≤ n) →
      generateFilterComplex n = .error ("Unsupported participant count: " ++ toString n) := by
  refine ⟨by rfl, by rfl, by rfl, by rfl, ?_⟩
  intro n hn
  have h1 : ¬ n = 1 := by omega
  have h2 : ¬ n = 2 := by omega
  have h3 : ¬ n = 3 := by omega
  have h4 : ¬ n = 4 := by omega
  unfold generateFilterComplex
  rw [if_neg h1, if_neg h2, if_neg h3, if_neg h4]

/-- Witness for C6: count 5 is rejected. -/
theorem generateFilterComplex_by_count_witness :
    generateFilterComplex 5 = .error ("Unsupported participant count: " ++ toString (5 : Nat)) :=
  generateFilterComplex_by_count.2.2.2.2 5 (Or.inr (by decide))

/-- C7 counterexample: `addPeer` on a room already containing `p1` (who owns
a transport) does not fail with `DuplicateParticipant`; it creates a fresh
`Peer`, returns it, and stores it over the existing entry, so the room's
participant set is changed (the stored `p1` loses its transport), refuting
both halves of the claim. -/
theorem addPeer_duplicate_creates_and_overwrites :
    (addPeer roomWithP1 "p1" false).2 = newPeer "p1" ∧
    alookup (addPeer roomWithP1 "p1" false).1.peers "p1" = some (newPeer "p1") ∧
    (addPeer roomWithP1 "p1" false).1.peers ≠ roomWithP1.peers := by
  decide

/-- C7 (amended): `addPeer` never fails: for any room, id and role flag it
constructs the fresh participant `newPeer id`, stores it under the id in the
map selected by the role (overwriting any existing entry with that id),
returns it, and leaves the other map untouched. -/
theorem addPeer_always_stores_fresh_peer (room : MRoom) (peerId : String)
    (isViewer : Bool) :
    (addPeer room peerId isViewer).2 = newPeer peerId ∧
    (if isViewer then
        alookup (addPeer room peerId isViewer).1.broadcasters peerId = some (newPeer peerId) ∧
        (addPeer room peerId isViewer).1.peers = room.peers
      else
        alookup (addPeer room peerId isViewer).1.peers peerId = some (newPeer peerId) ∧
        (addPeer room peerId isViewer).1.broadcasters = room.broadcasters) := by
  cases isViewer <;> simp [addPeer, alookup_ainsert]

/-- C8 counterexample: calling `createWebRtcTransport` twice for direction
`send` (the router assigning ids 1 then 2 to the two transports it creates)
returns the new transport id 2 on the second call, not the existing id 1,
and the stored entry is replaced — transport creation is not idempotent. -/
theorem createWebRtcTransport_twice_returns_new :
    c8first.2 = 1 ∧ c8second.2 = 2 ∧ c8second.2 ≠ c8first.2 ∧
    alookup c8second.1.transports "send" = some 2 := by
  decide

/-- C8 (amended): a repeated `createWebRtcTransport` call for the same
direction creates a fresh transport, returns it, and overwrites the stored
entry for that direction; the map still holds at most one transport per
direction, and other directions are untouched. -/
theorem createWebRtcTransport_overwrites_by_direction (p : MPeer) (f1 f2 : Nat)
    (d d2 : String) (hcount : countKey p.transports d ≤ 1) (hd2 : d2 ≠ d) :
    (createWebRtcTransport p f1 d).2 = f1 ∧
    (createWebRtcTransport (createWebRtcTransport p f1 d).1 f2 d).2 = f2 ∧
    alookup (createWebRtcTransport (createWebRtcTransport p f1 d).1 f2 d).1.transports d
      = some f2 ∧
    countKey (createWebRtcTransport (createWebRtcTransport p f1 d).1 f2 d).1.transports d
      = 1 ∧
    alookup (createWebRtcTransport (createWebRtcTransport p f1 d).1 f2 d).1.transports d2
      = alookup p.transports d2 := by
  refine ⟨rfl, rfl, ?_, ?_, ?_⟩
  · simp [createWebRtcTransport, alookup_ainsert]
  · simp only [createWebRtcTransport]
    rw [countKey_ainsert_self, countKey_ainsert_self]
    rcases Nat.lt_or_ge 0 (countKey p.transports d) with h | h
    · have : countKey p.transports d = 1 := by omega
      simp [this]
    · have : countKey p.transports d = 0 := by omega
      simp [this]
  · have hne : ¬ d = d2 := fun h => hd2 h.symm
    simp [createWebRtcTransport, alookup_ainsert, hne]

/-- Witness for C8 (amended): instantiated at an empty peer, ids 1 and 2,
directions `send` and `recv`. -/
theorem createWebRtcTransport_overwrites_by_direction_witness :
    alookup (createWebRtcTransport (createWebRtcTransport (newPeer "p") 1 "send").1
      2 "send").1.transports "send" = some 2 ∧
    countKey (createWebRtcTransport (createWebRtcTransport (newPeer "p") 1 "send").1
      2 "send").1.transports "send" = 1 :=
  ⟨(createWebRtcTransport_overwrites_by_direction (newPeer "p") 1 2 "send" "recv"
      (by decide) (by decide)).2.2.1,
   (createWebRtcTransport_overwrites_by_direction (newPeer "p") 1 2 "send" "recv"
      (by decide) (by decide)).2.2.2.1⟩

/-- C9 counterexample: peer `A` is in room `r1`; producer `p2` is registered
only in room `r2` (owned by `B`), yet the consume handler — which never
consults the room registry, because the producer map is global — accepts the
cross-room consume and returns a consumer. -/
theorem consume_cross_room_is_accepted :
    alookup wsTwoRooms.peers "A" = some "r1" ∧
    ((alookup wsTwoRooms.rooms "r1").map (fun room => alookup room.producers "p2")
        = some none) ∧
    ((alookup wsTwoRooms.rooms "r2").map (fun room => alookup room.producers "p2")
        = some (some ⟨"p2", "video", "B"⟩)) ∧
    consumeHandler wsTwoRooms msGlobal (fun _ _ => true) "c1" "A" "t1" "p2" "caps" =
      .ok ("c1", { msGlobal with consumers := [("c1", "A")] }) := by
  decide

/-- C9 (amended): with the router initialized and the transport known,
`consume` fails with `Producer not found` exactly when the producer id is
missing from the single global producer registry (there is no room scoping,
so registration in any room suffices); it fails with the capability error
when the router reports the capability set cannot consume the producer; and
otherwise it stores and returns a new consumer. -/
theorem consume_cases (st : MSState) (canConsume : String → RtpCapabilities → Bool)
    (freshId transportId producerId : String) (caps : RtpCapabilities) (peerId : String)
    (hrouter : st.routerInit = true)
    (htrans : st.transports.contains transportId = true) :
    ((alookup st.producers producerId).isNone = true →
        consume st canConsume freshId transportId producerId caps peerId =
          .error ("Producer not found: " ++ producerId)) ∧
    ((alookup st.producers producerId).isSome = true → canConsume producerId caps = false →
        consume st canConsume freshId transportId producerId caps peerId =
          .error "Cannot consume this producer") ∧
    ((alookup st.producers producerId).isSome = true → canConsume producerId caps = true →
        consume st canConsume freshId transportId producerId caps peerId =
          .ok (freshId, { st with consumers := ainsert st.consumers freshId peerId })) := by
  have htm : transportId ∈ st.transports := by simpa using htrans
  refine ⟨?_, ?_, ?_⟩
  · intro h
    simp [consume, hrouter, htm, h]
  · intro h hcan
    have hn : (alookup st.producers producerId).isNone = false := by
      cases halo : alookup st.producers producerId <;> simp [halo] at h ⊢
    simp [consume, hrouter, htm, hn, hcan]
  · intro h hcan
    have hn : (alookup st.producers producerId).isNone = false := by
      cases halo : alookup st.producers producerId <;> simp [halo] at h ⊢
    simp [consume, hrouter, htm, hn, hcan]

/-- Witness for C9 (amended): an unregistered producer id is refused with
`Producer not found` in the concrete global state. -/
theorem consume_cases_witness :
    consume msGlobal (fun _ _ => true) "c1" "t1" "nope" "caps" "A" =
      .error ("Producer not found: " ++ "nope") :=
  (consume_cases msGlobal (fun _ _ => true) "c1" "t1" "nope" "caps" "A"
    (by decide) (by decide)).1 (by decide)

theorem mem_filter_ne (l : List String) (s x : String) :
    x ∈ l.filter (fun pid => pid != s) ↔ (x ∈ l ∧ x ≠ s) := by
  simp [List.mem_filter]

/-- C10: the `existing-peers` snapshot emitted to a joining connection never
contains the joiner's own id: although the joiner has already been added to
the room's peer set when the snapshot is taken, the list is filtered on the
joiner's id, so the joiner observes exactly the set of other peers of the
post-join room. -/
theorem joinRoom_snapshot_excludes_self (st : WSState) (socketId roomId : String) :
    socketId ∉ (joinRoom st socketId roomId).2.1 ∧
    ∀ x : String, x ∈ (joinRoom st socketId roomId).2.1 ↔
      (x ≠ socketId ∧ ∃ room, alookup (joinRoom st socketId roomId).1.rooms roomId = some room
        ∧ x ∈ room.peers) := by
  have hmain : ∀ x : String, x ∈ (joinRoom st socketId roomId).2.1 ↔
      (x ≠ socketId ∧ ∃ room, alookup (joinRoom st socketId roomId).1.rooms roomId = some room
        ∧ x ∈ room.peers) := by
    intro x
    unfold joinRoom
    dsimp only
    rw [mem_filter_ne, alookup_ainsert, if_pos rfl]
    constructor
    · rintro ⟨hx, hne⟩
      exact ⟨hne, _, rfl, hx⟩
    · rintro ⟨hne, room, hroom, hx⟩
      cases Option.some.inj hroom
      exact ⟨hx, hne⟩
  refine ⟨fun hmem => ((hmain socketId).mp hmem).1 rfl, hmain⟩

/-- Witness for C10: in the concrete empty registry, joining room `r` as
socket `A` yields a snapshot not containing `A`. -/
theorem joinRoom_snapshot_excludes_self_witness :
    "A" ∉ (joinRoom initWS "A" "r").2.1 :=
  (joinRoom_snapshot_excludes_self initWS "A" "r").1

theorem joinRoom_preserves_noEmptyRooms (st : WSState) (socketId roomId : String)
    (h : noEmptyRooms st) : noEmptyRooms (joinRoom st socketId roomId).1 := by
  intro rid room hroom
  unfold joinRoom at hroom
  dsimp only at hroom
  rw [alookup_ainsert] at hroom
  by_cases heq : roomId = rid
  · rw [if_pos heq] at hroom
    injection hroom with hroom
    subst hroom
    exact setAdd_ne_nil _ _
  · rw [if_neg heq] at hroom
    by_cases hex : (alookup st.rooms roomId).isSome = true
    · rw [if_pos hex] at hroom
      exact h rid room hroom
    · rw [if_neg hex] at hroom
      rw [alookup_ainsert, if_neg heq] at hroom
      exact h rid room hroom

theorem produceOp_preserves_noEmptyRooms (st : WSState) (socketId producerId pkind : String)
    (h : noEmptyRooms st) : noEmptyRooms (produceOp st socketId producerId pkind) := by
  intro rid room hroom
  unfold produceOp at hroom
  cases hpeer : alookup st.peers socketId with
  | none =>
      rw [hpeer] at hroom
      exact h rid room hroom
  | some roomId =>
      rw [hpeer] at hroom
      dsimp only at hroom
      cases hrm : alookup st.rooms roomId with
      | none =>
          rw [hrm] at hroom
          exact h rid room hroom
      | some room0 =>
          rw [hrm] at hroom
          dsimp only at hroom
          rw [alookup_ainsert] at hroom
          by_cases heq : roomId = rid
          · rw [if_pos heq] at hroom
            injection hroom with hroom
            subst hroom
            exact h roomId room0 hrm
          · rw [if_neg heq] at hroom
            exact h rid room hroom

theorem disconnectPeer_preserves_noEmptyRooms (st : WSState) (socketId : String)
    (h : noEmptyRooms st) : noEmptyRooms (disconnectPeer st socketId) := by
  intro rid room hroom
  unfold disconnectPeer at hroom
  cases hpeer : alookup st.peers socketId with
  | none =>
      rw [hpeer] at hroom
      dsimp only at hroom
      exact h rid room hroom
  | some roomId =>
      rw [hpeer] at hroom
      dsimp only at hroom
      cases hrm : alookup st.rooms roomId with
      | none =>
          rw [hrm] at hroom
          dsimp only at hroom
          exact h rid room hroom
      | some room0 =>
          rw [hrm] at hroom
          dsimp only at hroom
          by_cases hlen : (room0.peers.filter (fun x => x != socketId)).length = 0
          · rw [if_pos hlen] at hroom
            dsimp only at hroom
            rw [alookup_aerase] at hroom
            by_cases heq : roomId = rid
            · rw [if_pos heq] at hroom
              cases hroom
            · rw [if_neg heq] at hroom
              exact h rid room hroom
          · rw [if_neg hlen] at hroom
            dsimp only at hroom
            rw [alookup_ainsert] at hroom
            by_cases heq : roomId = rid
            · rw [if_pos heq] at hroom
              injection hroom with hroom
              subst hroom
              intro hnil
              have hnil2 : (room0.peers.filter (fun x => x != socketId)) = [] := hnil
              exact hlen (by rw [hnil2]; rfl)
            · rw [if_neg heq] at hroom
              exact h rid room hroom

theorem applyOps_preserves_noEmptyRooms (ops : List WSOp) (st : WSState)
    (h : noEmptyRooms st) : noEmptyRooms (applyOps st ops) := by
  induction ops generalizing st with
  | nil => exact h
  | cons op rest ih =>
      apply ih
      cases op with
      | join s r => exact joinRoom_preserves_noEmptyRooms st s r h
      | produce s p k => exact produceOp_preserves_noEmptyRooms st s p k h
      | disconnect s => exact disconnectPeer_preserves_noEmptyRooms st s h

/-- C5: starting from the empty registry, after any sequence of join, produce
and disconnect operations completes, every room still present in the registry
has a nonempty participant set. In particular the disconnect handler deletes
the room in the same step in which it removes the last participant, so
`participants.size == 0` implies the room id maps to no room. -/
theorem rooms_never_empty (ops : List WSOp) : noEmptyRooms (applyOps initWS ops) := by
  apply applyOps_preserves_noEmptyRooms
  intro rid room hroom
  simp [initWS, alookup] at hroom

/-- Witness for C5: after a join and the matching disconnect, the invariant
holds of the resulting concrete registry. -/
theorem rooms_never_empty_witness :
    noEmptyRooms (applyOps initWS [WSOp.join "A" "r1", WSOp.disconnect "A"]) :=
  rooms_never_empty [WSOp.join "A" "r1", WSOp.disconnect "A"]

theorem waitLoop_ok_implies_ready (fs : Nat → FSSnapshot) (fuel tick : Nat)
    (h : waitLoop fs fuel tick = .ok ()) :
    ∃ k, tick ≤ k ∧ k < tick + fuel ∧ pollReady (fs k) = true := by
  induction fuel generalizing tick with
  | zero => simp [waitLoop] at h
  | succ n ih =>
      by_cases hr : pollReady (fs tick) = true
      · exact ⟨tick, Nat.le_refl _, by omega, hr⟩
      · simp only [waitLoop] at h
        rw [if_neg hr] at h
        obtain ⟨k, h1, h2, h3⟩ := ih (tick + 1) h
        exact ⟨k, by omega, by omega, h3⟩

theorem waitLoop_all_unready_times_out (fs : Nat → FSSnapshot) (fuel tick : Nat)
    (h : ∀ k, tick ≤ k → k < tick + fuel → pollReady (fs k) = false) :
    waitLoop fs fuel tick = .error "Timeout waiting for HLS manifest after 30000ms" := by
  induction fuel generalizing tick with
  | zero => rfl
  | succ n ih =>
      have h0 : pollReady (fs tick) = false := h tick (Nat.le_refl _) (by omega)
      have h0n : ¬ pollReady (fs tick) = true := by simp [h0]
      simp only [waitLoop]
      rw [if_neg h0n]
      exact ih (tick + 1) (fun k hk1 hk2 => h k (by omega) (by omega))

theorem setupTaps_all_ok (env : HLSEnv) (parts : List ParticipantInput)
    (h : ∀ p ∈ parts, env.consumeOk p.videoProducerId = true ∧
      env.consumeOk p.audioProducerId = true) :
    ∀ i st acc, ∃ taps st2, setupTaps env parts i st acc = (none, taps, st2) ∧
      st2.streams = st.streams := by
  induction parts with
  | nil =>
      intro i st acc
      exact ⟨acc.reverse, st, rfl, rfl⟩
  | cons p rest ih =>
      intro i st acc
      obtain ⟨hv, ha⟩ := h p (List.mem_cons_self _ _)
      have hrest := fun q hq => h q (List.mem_cons_of_mem _ hq)
      obtain ⟨taps, st2, heq, hstr⟩ := ih hrest (i + 1)
        { st with openTransports := st.openTransports + 2,
                  openConsumers := st.openConsumers + 1 + 1 }
        ({ videoPort := 20000 + i * 4, audioPort := 20000 + i * 4 + 2,
           videoProducerId := p.videoProducerId,
           audioProducerId := p.audioProducerId } :: acc)
      refine ⟨taps, st2, ?_, hstr⟩
      simp only [setupTaps, hv, ha]
      exact heq

theorem startHLSStreamGo_ok_implies_ready (env : HLSEnv) (roomId outputDir : String)
    (st1 : HLSState) (parts : List ParticipantInput)
    (hok : isOkE (startHLSStreamGo env roomId outputDir st1 parts).1 = true) :
    ∃ k, 1 ≤ k ∧ k ≤ 60 ∧ pollReady (env.fs k) = true := by
  unfold startHLSStreamGo at hok
  rcases hsetup : setupTaps env parts 0 st1 [] with ⟨opt, taps, st2⟩
  rw [hsetup] at hok
  cases opt with
  | some e => simp [isOkE] at hok
  | none =>
      cases hwait : waitForFirstSegment env.fs with
      | error e => rw [hwait] at hok; simp [isOkE] at hok
      | ok u =>
          obtain ⟨k, h1, h2, h3⟩ := waitLoop_ok_implies_ready env.fs 60 1
            (by cases u; exact hwait)
          exact ⟨k, h1, by omega, h3⟩

theorem startHLSStreamGo_unready_times_out (env : HLSEnv) (roomId outputDir : String)
    (st1 : HLSState) (parts : List ParticipantInput)
    (hcons : ∀ p ∈ parts, env.consumeOk p.videoProducerId = true ∧
      env.consumeOk p.audioProducerId = true)
    (hnone : ∀ k, 1 ≤ k → k ≤ 60 → pollReady (env.fs k) = false) :
    (startHLSStreamGo env roomId outputDir st1 parts).1 =
      .error "Timeout waiting for HLS manifest after 30000ms" ∧
    (startHLSStreamGo env roomId outputDir st1 parts).2.streams = st1.streams ∧
    outputDir ∉ (startHLSStreamGo env roomId outputDir st1 parts).2.dirs := by
  obtain ⟨taps, st2, hsetup, hstr⟩ := setupTaps_all_ok env parts hcons 0 st1 []
  have hwait : waitForFirstSegment env.fs =
      .error "Timeout waiting for HLS manifest after 30000ms" :=
    waitLoop_all_unready_times_out env.fs 60 1
      (fun k hk1 hk2 => hnone k hk1 (by omega))
  unfold startHLSStreamGo
  rw [hsetup, hwait]
  refine ⟨rfl, hstr, ?_⟩
  intro hmem
  have hmem2 : outputDir ∈ st2.dirs.filter (fun d => d != outputDir) := hmem
  exact ((mem_filter_ne _ _ _).mp hmem2).2 rfl

/-- C4: with no stream registered for the room, `startHLSStream` reports
success only when some poll tick within the bounded 60-tick (30000 ms)
window observed a manifest referencing a segment that exists on disk; and
when the per-participant setup succeeds but no tick of the window is ready,
the call rejects with the timeout error and the job is cleaned up rather
than exposed — the room is absent from the stream map and the per-room
output directory is removed. -/
theorem startHLSStream_readiness_gate (st : HLSState) (env : HLSEnv)
    (roomId : String) (parts : List ParticipantInput)
    (hfresh : alookup st.streams roomId = none) :
    (isOkE (startHLSStream st env roomId parts).1 = true →
       ∃ k, 1 ≤ k ∧ k ≤ 60 ∧ pollReady (env.fs k) = true) ∧
    ((∀ p ∈ parts, env.consumeOk p.videoProducerId = true ∧
        env.consumeOk p.audioProducerId = true) →
     1 ≤ parts.length → parts.length ≤ 4 →
     (∀ k, 1 ≤ k → k ≤ 60 → pollReady (env.fs k) = false) →
       (startHLSStream st env roomId parts).1 =
         .error "Timeout waiting for HLS manifest after 30000ms" ∧
       alookup ((startHLSStream st env roomId parts).2).streams roomId = none ∧
       ("public/hls/" ++ roomId) ∉ ((startHLSStream st env roomId parts).2).dirs) := by
  have hns : ¬ ((alookup st.streams roomId).isSome = true) := by simp [hfresh]
  constructor
  · intro hok
    unfold startHLSStream at hok
    by_cases h0 : parts.length = 0
    · rw [if_pos h0] at hok
      exact absurd hok (by simp [isOkE])
    · rw [if_neg h0] at hok
      by_cases h4 : parts.length > 4
      · rw [if_pos h4] at hok
        exact absurd hok (by simp [isOkE])
      · rw [if_neg h4, if_neg hns] at hok
        exact startHLSStreamGo_ok_implies_ready env roomId _ _ parts hok
  · intro hcons h1 h4 hnone
    have h0 : ¬ parts.length = 0 := by omega
    have hgt : ¬ parts.length > 4 := by omega
    unfold startHLSStream
    rw [if_neg h0, if_neg hgt, if_neg hns]
    obtain ⟨ha, hb, hc⟩ := startHLSStreamGo_unready_times_out env roomId
      ("public/hls/" ++ roomId)
      { st with dirs := if st.dirs.contains ("public/hls/" ++ roomId) then st.dirs
          else ("public/hls/" ++ roomId) :: st.dirs }
      parts hcons hnone
    exact ⟨ha, by rw [hb]; exact hfresh, hc⟩

/-- Witness for C4: in the environment whose manifest never appears, a fresh
one-participant start times out and leaves no job and no directory behind. -/
theorem startHLSStream_readiness_gate_witness :
    (startHLSStream initHLS neverReadyEnv "ghost" [⟨"v", "a"⟩]).1 =
      .error "Timeout waiting for HLS manifest after 30000ms" ∧
    alookup ((startHLSStream initHLS neverReadyEnv "ghost" [⟨"v", "a"⟩]).2).streams
      "ghost" = none ∧
    ("public/hls/" ++ "ghost") ∉
      ((startHLSStream initHLS neverReadyEnv "ghost" [⟨"v", "a"⟩]).2).dirs :=
  (startHLSStream_readiness_gate initHLS neverReadyEnv "ghost" [⟨"v", "a"⟩] rfl).2
    (by decide) (by decide) (by decide) (fun k h1 h2 => rfl)

end WebRtcHLS
